import Mathlib

/-!
Verification of the GCS-event-triggered document-import handler
(`src/main.py`, `import_document_on_gcs_event`).

The handler is embedded shallowly: the external Discovery Engine client is
an abstract `Remote` function from requests to either an error (a raised
exception, carried as its message string) or an operation handle; the
handler itself becomes a pure function returning the ordered list of log
lines it printed, the endpoints of the clients it constructed, the requests
it handed to the client, and whether an exception propagated to the caller.
-/

namespace GcsIndexer

/-- Process-wide configuration: the three environment variables read at
module load (`PROJECT_ID`, `LOCATION`, `DATASTORE_ID`). -/
structure Config where
  PROJECT_ID : String
  LOCATION : String
  DATASTORE_ID : String
deriving Repr, DecidableEq

/-- The incoming cloud event: `data.get("bucket")` and `data.get("name")`
return `None` when the key is absent (modelled as `Option String`), and
`cloud_event["type"]` is the event kind string. -/
structure CloudEvent where
  bucket : Option String
  name : Option String
  eventType : String
deriving Repr, DecidableEq

/-- `discoveryengine.ImportDocumentsRequest.ReconciliationMode`. -/
inductive ReconciliationMode where
  | INCREMENTAL
  | FULL
deriving Repr, DecidableEq

/-- `discoveryengine.GcsSource`: the `input_uris` list and `data_schema`. -/
structure GcsSource where
  input_uris : List String
  data_schema : String
deriving Repr, DecidableEq

/-- `discoveryengine.ImportDocumentsRequest` as built by the handler:
`parent`, `gcs_source`, `reconciliation_mode`. -/
structure ImportDocumentsRequest where
  parent : String
  gcs_source : GcsSource
  reconciliation_mode : ReconciliationMode
deriving Repr, DecidableEq

/-- Python truthiness test `not x` on a value that is either `None` or a
string: true exactly when the value is absent or the empty string. -/
def strFalsy : Option String → Bool
  | none => true
  | some s => s.isEmpty

/-- Python `str()` as used by f-string interpolation of a value that is
either `None` or a string. -/
def pyStr : Option String → String
  | none => "None"
  | some s => s

/-- Line 43: `gcs_uri = f"gs://{bucket_name}/{file_name}"`. -/
def gcsUriOf (bucket_name file_name : String) : String :=
  "gs://" ++ bucket_name ++ "/" ++ file_name

/-- Lines 49-53: the client options are an endpoint override
`f"{LOCATION}-discoveryengine.googleapis.com"` when `LOCATION` is not
`"global"`, and `None` (the default endpoint) otherwise. -/
def client_options (location : String) : Option String :=
  if location ≠ "global" then some (location ++ "-discoveryengine.googleapis.com")
  else none

/-- Lines 59-64: `client.branch_path(project, location, data_store, branch)`,
the SDK's fixed resource-path template
`projects/{project}/locations/{location}/dataStores/{data_store}/branches/{branch}`. -/
def branch_path (project location data_store branch : String) : String :=
  "projects/" ++ project ++ "/locations/" ++ location ++ "/dataStores/" ++
    data_store ++ "/branches/" ++ branch

/-- The long-running operation handle returned by `client.import_documents`:
its name (`operation.operation.name`), the outcome of blocking on
`operation.result()` (a response string, or a raised error), and the
`operation.metadata` payload. -/
structure OperationHandle where
  opName : String
  resultOf : Except String String
  metadata : String

/-- The external indexing client: `client.import_documents(request)` either
raises (an error string) or returns an operation handle. -/
def Remote : Type := ImportDocumentsRequest → Except String OperationHandle

/-- The observable outcome of one invocation: the printed log lines in
order, the endpoints of the Discovery Engine clients constructed, the
requests handed to `client.import_documents`, and whether an exception
propagated to the caller. -/
structure HandlerResult where
  logs : List String
  clientEndpoints : List (Option String)
  submitted : List ImportDocumentsRequest
  raised : Bool
deriving Repr, DecidableEq

/-- Lines 19-97: `import_document_on_gcs_event(cloud_event)`. Extracts
`bucket`/`name`/`type`, logs them, exits early when `name` or `bucket` is
falsy, otherwise builds the GCS URI, constructs the client and the
`ImportDocumentsRequest`, submits it, waits for the result, and logs the
outcome; every exception from the try-block is caught by the
`except Exception` handler at line 95, which logs and returns. -/
def import_document_on_gcs_event (cfg : Config) (remote : Remote)
    (cloud_event : CloudEvent) : HandlerResult :=
  let bucket_name := cloud_event.bucket
  let file_name := cloud_event.name
  let event_type := cloud_event.eventType
  let baseLogs := ["Event type: " ++ event_type,
                   "Bucket: " ++ pyStr bucket_name,
                   "File: " ++ pyStr file_name]
  if strFalsy file_name || strFalsy bucket_name then
    { logs := baseLogs ++
        ["No file name or bucket name found in the event data. Exiting."],
      clientEndpoints := [], submitted := [], raised := false }
  else
    let gcs_uri := gcsUriOf (pyStr bucket_name) (pyStr file_name)
    let cOpts := client_options cfg.LOCATION
    let parent := branch_path cfg.PROJECT_ID cfg.LOCATION cfg.DATASTORE_ID
      "default_branch"
    let request : ImportDocumentsRequest :=
      { parent := parent,
        gcs_source := { input_uris := [gcs_uri], data_schema := "content" },
        reconciliation_mode := ReconciliationMode.INCREMENTAL }
    let logs1 := baseLogs ++
      ["Constructed GCS URI: " ++ gcs_uri,
       "Starting document import for: " ++ gcs_uri]
    match remote request with
    | Except.error e =>
        { logs := logs1 ++ ["Error importing document " ++ gcs_uri ++ ": " ++ e],
          clientEndpoints := [cOpts], submitted := [request], raised := false }
    | Except.ok operation =>
        let logs2 := logs1 ++
          ["Waiting for import operation to complete: " ++ operation.opName]
        match operation.resultOf with
        | Except.error e =>
            { logs := logs2 ++
                ["Error importing document " ++ gcs_uri ++ ": " ++ e],
              clientEndpoints := [cOpts], submitted := [request], raised := false }
        | Except.ok response =>
            { logs := logs2 ++
                ["Import operation response:", response,
                 "Import operation metadata:", operation.metadata,
                 "Successfully imported " ++ gcs_uri ++ " into datastore " ++
                   cfg.DATASTORE_ID],
              clientEndpoints := [cOpts], submitted := [request], raised := false }

/-- The fixed diagnostic printed on the missing-field path (line 39). -/
def missingDiag : String :=
  "No file name or bucket name found in the event data. Exiting."

/-- A sample configuration used by concrete witnesses. -/
def cfg0 : Config := ⟨"proj1", "global", "ds1"⟩

/-- A remote whose submission always raises `"boom"`. -/
def remoteFail : Remote := fun _ => Except.error "boom"

/-- A remote whose submission succeeds and whose operation completes with
response `"resp"` and metadata `"meta"`. -/
def remoteOk : Remote := fun _ => Except.ok ⟨"op1", Except.ok "resp", "meta"⟩

/-- Appending anything to a string starting with `c` never yields a string
starting with a different character `d`. -/
theorem append_ne_of_head (a b : String) (c d : Char) (ta tb : List Char)
    (ha : a.data = c :: ta) (hb : b.data = d :: tb) (hcd : c ≠ d) (x : String) :
    (a ++ x) ≠ b := by
  intro h
  have h2 := congrArg String.data h
  rw [String.data_append, ha, hb, List.cons_append] at h2
  exact hcd (List.head_eq_of_cons_eq h2)

/-- An event-type informational line is never the missing-field diagnostic. -/
theorem eventTypeLine_ne_diag (x : String) : ("Event type: " ++ x) ≠ missingDiag :=
  append_ne_of_head _ _ 'E' 'N' _ _ rfl rfl (by decide) x

/-- A bucket informational line is never the missing-field diagnostic. -/
theorem bucketLine_ne_diag (x : String) : ("Bucket: " ++ x) ≠ missingDiag :=
  append_ne_of_head _ _ 'B' 'N' _ _ rfl rfl (by decide) x

/-- A file informational line is never the missing-field diagnostic. -/
theorem fileLine_ne_diag (x : String) : ("File: " ++ x) ≠ missingDiag :=
  append_ne_of_head _ _ 'F' 'N' _ _ rfl rfl (by decide) x

/-- A present, non-empty (bucket, name) pair fails the early-exit test of
line 38 (`if not file_name or not bucket_name`). -/
theorem valid_cond (b n : String) (hb : b ≠ "") (hn : n ≠ "") :
    (strFalsy (some n) || strFalsy (some b)) = false := by
  have h1 : n.isEmpty = false := by
    cases h : n.isEmpty
    · rfl
    · exact absurd ((String.isEmpty_iff _).mp h) hn
  have h2 : b.isEmpty = false := by
    cases h : b.isEmpty
    · rfl
    · exact absurd ((String.isEmpty_iff _).mp h) hb
  simp [strFalsy, h1, h2]

/-- Master run lemma for a valid event (both fields present and non-empty):
whatever the remote does, exactly the one incremental request is submitted,
one client is built with the location-derived endpoint, and no exception
propagates. -/
theorem valid_event_run (cfg : Config) (remote : Remote) (b n t : String)
    (hb : b ≠ "") (hn : n ≠ "") :
    (import_document_on_gcs_event cfg remote ⟨some b, some n, t⟩).submitted =
      [{ parent := branch_path cfg.PROJECT_ID cfg.LOCATION cfg.DATASTORE_ID
           "default_branch",
         gcs_source := { input_uris := [gcsUriOf b n], data_schema := "content" },
         reconciliation_mode := ReconciliationMode.INCREMENTAL }] ∧
    (import_document_on_gcs_event cfg remote ⟨some b, some n, t⟩).clientEndpoints =
      [client_options cfg.LOCATION] ∧
    (import_document_on_gcs_event cfg remote ⟨some b, some n, t⟩).raised = false := by
  refine ⟨?_, ?_, ?_⟩ <;>
  · unfold import_document_on_gcs_event
    simp only [pyStr, valid_cond b n hb hn, Bool.false_eq_true, if_false]
    split
    · simp
    · split <;> simp

/-- Claim C1 counterexample: with a remote whose submission raises, the
handler catches the exception and returns cleanly (`raised = false`), so no
error reaches the caller — the claim's required propagation fails, even
though the locator is logged with the failure. -/
theorem error_not_propagated_cex :
    (import_document_on_gcs_event cfg0 remoteFail
        ⟨some "docs-bucket", some "report.pdf", "finalized"⟩).raised = false ∧
    (import_document_on_gcs_event cfg0 remoteFail
        ⟨some "docs-bucket", some "report.pdf", "finalized"⟩).logs.getLast? =
      some "Error importing document gs://docs-bucket/report.pdf: boom" :=
  ⟨rfl, rfl⟩

/-- Claim C1 (amended): if the remote submission or the wait raises an
error, the handler logs the locator together with the failure detail, but
the `except` block catches the exception: the caller always observes a
clean return, never a propagated failure. -/
theorem remote_error_logged_and_swallowed (cfg : Config) (remote : Remote)
    (b n t e : String) (hb : b ≠ "") (hn : n ≠ "")
    (hfail : ∀ r, remote r = Except.error e ∨
      ∃ op, remote r = Except.ok op ∧ op.resultOf = Except.error e) :
    (import_document_on_gcs_event cfg remote ⟨some b, some n, t⟩).raised = false ∧
    ("Error importing document " ++ gcsUriOf b n ++ ": " ++ e) ∈
      (import_document_on_gcs_event cfg remote ⟨some b, some n, t⟩).logs := by
  refine ⟨(valid_event_run cfg remote b n t hb hn).2.2, ?_⟩
  unfold import_document_on_gcs_event
  simp only [pyStr, valid_cond b n hb hn, Bool.false_eq_true, if_false]
  rcases hfail
      { parent := branch_path cfg.PROJECT_ID cfg.LOCATION cfg.DATASTORE_ID
          "default_branch",
        gcs_source := { input_uris := [gcsUriOf b n], data_schema := "content" },
        reconciliation_mode := ReconciliationMode.INCREMENTAL }
    with hrem | ⟨op, hok, hres⟩
  · rw [hrem]
    simp
  · rw [hok]
    simp [hres]

/-- Concrete witness for the amended C1 theorem. -/
theorem remote_error_logged_and_swallowed_witness :
    (import_document_on_gcs_event cfg0 remoteFail ⟨some "b", some "n", "t"⟩).raised
      = false ∧
    ("Error importing document " ++ gcsUriOf "b" "n" ++ ": " ++ "boom") ∈
      (import_document_on_gcs_event cfg0 remoteFail ⟨some "b", some "n", "t"⟩).logs :=
  remote_error_logged_and_swallowed cfg0 remoteFail "b" "n" "t" "boom"
    (by decide) (by decide) (fun _ => Or.inl rfl)

/-- Claim C2: for a present, non-empty (containerId, objectKey) pair, the
constructed locator equals exactly the concatenation
`gs://` ++ containerId ++ `/` ++ objectKey, and every request the handler
submits carries exactly that locator; being a pure function of the pair,
the construction is deterministic. -/
theorem locator_is_fixed_concatenation (cfg : Config) (remote : Remote)
    (b n t : String) (hb : b ≠ "") (hn : n ≠ "") :
    gcsUriOf b n = "gs://" ++ b ++ "/" ++ n ∧
    ∀ r ∈ (import_document_on_gcs_event cfg remote ⟨some b, some n, t⟩).submitted,
      r.gcs_source.input_uris = ["gs://" ++ b ++ "/" ++ n] := by
  refine ⟨rfl, ?_⟩
  rw [(valid_event_run cfg remote b n t hb hn).1]
  intro r hr
  rw [List.mem_singleton] at hr
  subst hr
  rfl

/-- Concrete witness for C2. -/
theorem locator_is_fixed_concatenation_witness :
    gcsUriOf "docs-bucket" "folder/report.pdf" = "gs://docs-bucket/folder/report.pdf" ∧
    ∀ r ∈ (import_document_on_gcs_event cfg0 remoteOk
        ⟨some "docs-bucket", some "folder/report.pdf", "finalized"⟩).submitted,
      r.gcs_source.input_uris = ["gs://docs-bucket/folder/report.pdf"] :=
  locator_is_fixed_concatenation cfg0 remoteOk "docs-bucket" "folder/report.pdf"
    "finalized" (by decide) (by decide)

/-- Claim C3: for a valid event, exactly one request is submitted, its
`input_uris` is the single constructed locator, its `data_schema` is the
fixed `"content"`, its reconciliation mode is INCREMENTAL (never FULL), and
its parent is the branch path of the configured project, location and
datastore with the fixed `default_branch` designator. -/
theorem single_incremental_import_request (cfg : Config) (remote : Remote)
    (b n t : String) (hb : b ≠ "") (hn : n ≠ "") :
    (import_document_on_gcs_event cfg remote ⟨some b, some n, t⟩).submitted.length
      = 1 ∧
    ∀ r ∈ (import_document_on_gcs_event cfg remote ⟨some b, some n, t⟩).submitted,
      r.parent = branch_path cfg.PROJECT_ID cfg.LOCATION cfg.DATASTORE_ID
        "default_branch" ∧
      r.gcs_source.input_uris = [gcsUriOf b n] ∧
      r.gcs_source.data_schema = "content" ∧
      r.reconciliation_mode = ReconciliationMode.INCREMENTAL ∧
      r.reconciliation_mode ≠ ReconciliationMode.FULL := by
  rw [(valid_event_run cfg remote b n t hb hn).1]
  refine ⟨rfl, ?_⟩
  intro r hr
  rw [List.mem_singleton] at hr
  subst hr
  exact ⟨rfl, rfl, rfl, rfl, by simp⟩

/-- Concrete witness for C3. -/
theorem single_incremental_import_request_witness :
    (import_document_on_gcs_event cfg0 remoteOk
        ⟨some "docs-bucket", some "report.pdf", "finalized"⟩).submitted.length = 1 ∧
    ∀ r ∈ (import_document_on_gcs_event cfg0 remoteOk
        ⟨some "docs-bucket", some "report.pdf", "finalized"⟩).submitted,
      r.parent = branch_path cfg0.PROJECT_ID cfg0.LOCATION cfg0.DATASTORE_ID
        "default_branch" ∧
      r.gcs_source.input_uris = [gcsUriOf "docs-bucket" "report.pdf"] ∧
      r.gcs_source.data_schema = "content" ∧
      r.reconciliation_mode = ReconciliationMode.INCREMENTAL ∧
      r.reconciliation_mode ≠ ReconciliationMode.FULL :=
  single_incremental_import_request cfg0 remoteOk "docs-bucket" "report.pdf"
    "finalized" (by decide) (by decide)

/-- Claim C4: when the event's bucket or name is absent or empty, the
handler submits nothing, constructs no client, and raises no exception —
the invocation is a successful no-op. -/
theorem missing_field_noop (cfg : Config) (remote : Remote) (ev : CloudEvent)
    (h : (strFalsy ev.name || strFalsy ev.bucket) = true) :
    (import_document_on_gcs_event cfg remote ev).submitted = [] ∧
    (import_document_on_gcs_event cfg remote ev).clientEndpoints = [] ∧
    (import_document_on_gcs_event cfg remote ev).raised = false := by
  obtain ⟨bucket, name, t⟩ := ev
  simp only [import_document_on_gcs_event]
  simp [h]

/-- Concrete witness for C4. -/
theorem missing_field_noop_witness :
    (import_document_on_gcs_event cfg0 remoteOk ⟨some "docs-bucket", none, "del"⟩).submitted
      = [] ∧
    (import_document_on_gcs_event cfg0 remoteOk ⟨some "docs-bucket", none, "del"⟩).clientEndpoints
      = [] ∧
    (import_document_on_gcs_event cfg0 remoteOk ⟨some "docs-bucket", none, "del"⟩).raised
      = false :=
  missing_field_noop cfg0 remoteOk ⟨some "docs-bucket", none, "del"⟩ (by decide)

/-- Claim C5 counterexample: an event missing only the name and an event
missing only the bucket each produce exactly one occurrence of the fixed
missing-field diagnostic, and the diagnostic lines of the two runs are
identical — the diagnostic therefore does not identify which field(s) are
missing. -/
theorem missing_field_diag_cex :
    (import_document_on_gcs_event cfg0 remoteOk
        ⟨some "b", none, "t"⟩).logs.count missingDiag = 1 ∧
    (import_document_on_gcs_event cfg0 remoteOk
        ⟨none, some "n", "t"⟩).logs.count missingDiag = 1 ∧
    (import_document_on_gcs_event cfg0 remoteOk
          ⟨some "b", none, "t"⟩).logs.filter (fun l => l == missingDiag) =
      (import_document_on_gcs_event cfg0 remoteOk
          ⟨none, some "n", "t"⟩).logs.filter (fun l => l == missingDiag) := by
  decide

/-- Claim C5 (amended): for every event missing the bucket or the name, the
handler logs exactly the three informational lines followed by one single
fixed missing-field diagnostic; the diagnostic occurs exactly once, but its
text is the same constant whichever field is missing. -/
theorem missing_field_single_fixed_diag (cfg : Config) (remote : Remote)
    (ev : CloudEvent) (h : (strFalsy ev.name || strFalsy ev.bucket) = true) :
    (import_document_on_gcs_event cfg remote ev).logs =
      ["Event type: " ++ ev.eventType, "Bucket: " ++ pyStr ev.bucket,
       "File: " ++ pyStr ev.name, missingDiag] ∧
    (import_document_on_gcs_event cfg remote ev).logs.count missingDiag = 1 := by
  obtain ⟨bucket, name, t⟩ := ev
  have hlogs : (import_document_on_gcs_event cfg remote ⟨bucket, name, t⟩).logs =
      ["Event type: " ++ t, "Bucket: " ++ pyStr bucket,
       "File: " ++ pyStr name, missingDiag] := by
    simp only [import_document_on_gcs_event]
    simp [h, missingDiag]
  refine ⟨hlogs, ?_⟩
  rw [hlogs]
  simp [List.count_cons, Ne.symm (eventTypeLine_ne_diag t),
    Ne.symm (bucketLine_ne_diag (pyStr bucket)),
    Ne.symm (fileLine_ne_diag (pyStr name))]

/-- Concrete witness for the amended C5 theorem. -/
theorem missing_field_single_fixed_diag_witness :
    (import_document_on_gcs_event cfg0 remoteOk ⟨none, none, "del"⟩).logs =
      ["Event type: " ++ "del", "Bucket: " ++ pyStr none,
       "File: " ++ pyStr none, missingDiag] ∧
    (import_document_on_gcs_event cfg0 remoteOk ⟨none, none, "del"⟩).logs.count
      missingDiag = 1 :=
  missing_field_single_fixed_diag cfg0 remoteOk ⟨none, none, "del"⟩ (by decide)

/-- Claim C6: when the remote operation completes successfully, the handler
logs the operation's response and its metadata (both the payloads and their
header lines appear in the returned log), and returns cleanly. -/
theorem success_logs_response_and_metadata (cfg : Config) (remote : Remote)
    (b n t resp : String) (op : OperationHandle) (hb : b ≠ "") (hn : n ≠ "")
    (hok : ∀ r, remote r = Except.ok op) (hres : op.resultOf = Except.ok resp) :
    resp ∈ (import_document_on_gcs_event cfg remote ⟨some b, some n, t⟩).logs ∧
    op.metadata ∈
      (import_document_on_gcs_event cfg remote ⟨some b, some n, t⟩).logs ∧
    "Import operation response:" ∈
      (import_document_on_gcs_event cfg remote ⟨some b, some n, t⟩).logs ∧
    "Import operation metadata:" ∈
      (import_document_on_gcs_event cfg remote ⟨some b, some n, t⟩).logs ∧
    (import_document_on_gcs_event cfg remote ⟨some b, some n, t⟩).raised = false := by
  refine ⟨?_, ?_, ?_, ?_, (valid_event_run cfg remote b n t hb hn).2.2⟩ <;>
  · unfold import_document_on_gcs_event
    simp only [pyStr, valid_cond b n hb hn, Bool.false_eq_true, if_false]
    rw [hok]
    simp [hres]

/-- Concrete witness for C6. -/
theorem success_logs_response_and_metadata_witness :
    ("resp" : String) ∈ (import_document_on_gcs_event cfg0 remoteOk
      ⟨some "b", some "n", "t"⟩).logs ∧
    (OperationHandle.mk "op1" (Except.ok "resp") "meta").metadata ∈
      (import_document_on_gcs_event cfg0 remoteOk ⟨some "b", some "n", "t"⟩).logs ∧
    ("Import operation response:" : String) ∈
      (import_document_on_gcs_event cfg0 remoteOk ⟨some "b", some "n", "t"⟩).logs ∧
    ("Import operation metadata:" : String) ∈
      (import_document_on_gcs_event cfg0 remoteOk ⟨some "b", some "n", "t"⟩).logs ∧
    (import_document_on_gcs_event cfg0 remoteOk ⟨some "b", some "n", "t"⟩).raised
      = false :=
  success_logs_response_and_metadata cfg0 remoteOk "b" "n" "t" "resp"
    (OperationHandle.mk "op1" (Except.ok "resp") "meta")
    (by decide) (by decide) (fun _ => rfl) rfl

/-- Claim C7: two invocations on the same event (same bucket and name, same
configuration) — even against remotes behaving differently — submit equal
lists of requests, each containing the one structurally identical request
(same locator, parent, schema and mode by list equality). -/
theorem same_event_same_request (cfg : Config) (remote1 remote2 : Remote)
    (b n t : String) (hb : b ≠ "") (hn : n ≠ "") :
    (import_document_on_gcs_event cfg remote1 ⟨some b, some n, t⟩).submitted =
      (import_document_on_gcs_event cfg remote2 ⟨some b, some n, t⟩).submitted ∧
    (import_document_on_gcs_event cfg remote1 ⟨some b, some n, t⟩).submitted.length
      = 1 := by
  rw [(valid_event_run cfg remote1 b n t hb hn).1,
    (valid_event_run cfg remote2 b n t hb hn).1]
  exact ⟨rfl, rfl⟩

/-- Concrete witness for C7. -/
theorem same_event_same_request_witness :
    (import_document_on_gcs_event cfg0 remoteOk
        ⟨some "docs-bucket", some "a.txt", "t"⟩).submitted =
      (import_document_on_gcs_event cfg0 remoteFail
        ⟨some "docs-bucket", some "a.txt", "t"⟩).submitted ∧
    (import_document_on_gcs_event cfg0 remoteOk
        ⟨some "docs-bucket", some "a.txt", "t"⟩).submitted.length = 1 :=
  same_event_same_request cfg0 remoteOk remoteFail "docs-bucket" "a.txt" "t"
    (by decide) (by decide)

/-- Claim C8: for two events agreeing on bucket and name but differing in
event kind, the handler takes the same branch and produces the same
submissions, the same client endpoints, the same raised flag, and the same
log except for the first line, which is the only place the event kind
appears. -/
theorem event_kind_noninterference (cfg : Config) (remote : Remote)
    (bucket name : Option String) (t1 t2 : String) :
    (import_document_on_gcs_event cfg remote ⟨bucket, name, t1⟩).submitted =
      (import_document_on_gcs_event cfg remote ⟨bucket, name, t2⟩).submitted ∧
    (import_document_on_gcs_event cfg remote ⟨bucket, name, t1⟩).clientEndpoints =
      (import_document_on_gcs_event cfg remote ⟨bucket, name, t2⟩).clientEndpoints ∧
    (import_document_on_gcs_event cfg remote ⟨bucket, name, t1⟩).raised =
      (import_document_on_gcs_event cfg remote ⟨bucket, name, t2⟩).raised ∧
    (import_document_on_gcs_event cfg remote ⟨bucket, name, t1⟩).logs.drop 1 =
      (import_document_on_gcs_event cfg remote ⟨bucket, name, t2⟩).logs.drop 1 ∧
    (import_document_on_gcs_event cfg remote ⟨bucket, name, t1⟩).logs.head? =
      some ("Event type: " ++ t1) := by
  unfold import_document_on_gcs_event
  by_cases hc : (strFalsy name || strFalsy bucket) = true
  · simp [hc]
  · rw [Bool.not_eq_true] at hc
    simp only [hc, Bool.false_eq_true, if_false]
    cases hrem : remote
        { parent := branch_path cfg.PROJECT_ID cfg.LOCATION cfg.DATASTORE_ID
            "default_branch",
          gcs_source := { input_uris := [gcsUriOf (pyStr bucket) (pyStr name)],
                          data_schema := "content" },
          reconciliation_mode := ReconciliationMode.INCREMENTAL } with
    | error e => simp [hrem]
    | ok op =>
        cases hres : op.resultOf with
        | error e2 => simp [hrem, hres]
        | ok resp => simp [hrem, hres]

/-- Claim C9: the client endpoint is derived from the configured location —
an explicit regional endpoint when the location is not `"global"`, and the
default endpoint (no override) when it is; a valid run constructs exactly
one client with that endpoint. -/
theorem endpoint_follows_location (cfg : Config) (remote : Remote)
    (b n t : String) (hb : b ≠ "") (hn : n ≠ "") :
    (cfg.LOCATION ≠ "global" →
      client_options cfg.LOCATION =
        some (cfg.LOCATION ++ "-discoveryengine.googleapis.com")) ∧
    (cfg.LOCATION = "global" → client_options cfg.LOCATION = none) ∧
    (import_document_on_gcs_event cfg remote ⟨some b, some n, t⟩).clientEndpoints =
      [client_options cfg.LOCATION] := by
  refine ⟨fun h => ?_, fun h => ?_, (valid_event_run cfg remote b n t hb hn).2.1⟩
  · simp [client_options, h]
  · simp [client_options, h]

/-- Concrete witness for C9, covering both the regional and the global
location. -/
theorem endpoint_follows_location_witness :
    ((Config.mk "proj1" "us" "ds1").LOCATION ≠ "global" →
      client_options (Config.mk "proj1" "us" "ds1").LOCATION =
        some ((Config.mk "proj1" "us" "ds1").LOCATION ++
          "-discoveryengine.googleapis.com")) ∧
    ((Config.mk "proj1" "us" "ds1").LOCATION = "global" →
      client_options (Config.mk "proj1" "us" "ds1").LOCATION = none) ∧
    (import_document_on_gcs_event (Config.mk "proj1" "us" "ds1") remoteOk
        ⟨some "b", some "n", "t"⟩).clientEndpoints =
      [client_options (Config.mk "proj1" "us" "ds1").LOCATION] :=
  endpoint_follows_location (Config.mk "proj1" "us" "ds1") remoteOk "b" "n" "t"
    (by decide) (by decide)

/-- Claim C10: the locator construction is not injective — the distinct
pairs ("a", "b/c") and ("a/b", "c") both map to the locator "gs://a/b/c". -/
theorem locator_not_injective :
    gcsUriOf "a" "b/c" = gcsUriOf "a/b" "c" ∧
    gcsUriOf "a" "b/c" = "gs://a/b/c" ∧
    ¬(("a" : String) = "a/b" ∧ ("b/c" : String) = "c") := by
  refine ⟨rfl, rfl, by decide⟩

end GcsIndexer
